import Mathlib

/-
Verification of the orchestration core of the `rta` repository
(services/tracker/app.py and services/tooler/app.py) against its
natural-language specification.

The Python code is shallowly embedded: SQL rows become Lean structures,
each short transaction becomes a pure function from state to state (or an
`Except String` value when the handler can abort with HTTP 400/404), and
the HTTP collaborators of the dispatcher become explicit response values
threaded into `processTask`.  Timestamps are modelled as an abstract
monotone `Nat` clock.
-/

namespace Rta

/-! ## Python string helpers

`pyStrip` models Python's `str.strip()` (leading/trailing whitespace
removal); `pyTruncate` models slicing `s[:n]` (the first `n` code points).
-/

def pyStrip (s : String) : String :=
  String.mk
    (((s.toList.dropWhile Char.isWhitespace).reverse.dropWhile
      Char.isWhitespace).reverse)

def pyTruncate (s : String) (n : Nat) : String := String.mk (s.toList.take n)

/-- Python's `s.replace(old, new)` for the one-character patterns used by
the tooler (`"\n" -> " "` and a quote to an apostrophe): a character map. -/
def pyReplaceChar (s : String) (oldC newC : Char) : String :=
  String.mk (s.toList.map (fun c => if c = oldC then newC else c))

/-- Python truthiness of an optional string value (`None` and `""` are falsy). -/
def pyTruthy : Option String → Bool
  | none => false
  | some s => !(s == "")

/-! ## Task state machine (services/tracker/app.py, TASK_STATES /
ALLOWED_TASK_TRANSITIONS / validate_task_transition) -/

inductive TaskStatus where
  | RECEIVED
  | ROUTED
  | TRANSCRIBING
  | REFINING
  | TOOL_QUEUED
  | TOOL_RUNNING
  | SUMMARIZING
  | TTS_GENERATING
  | DELIVERED
  | FAILED
deriving DecidableEq, Repr, Fintype

open TaskStatus

def TaskStatus.name : TaskStatus → String
  | RECEIVED => "RECEIVED"
  | ROUTED => "ROUTED"
  | TRANSCRIBING => "TRANSCRIBING"
  | REFINING => "REFINING"
  | TOOL_QUEUED => "TOOL_QUEUED"
  | TOOL_RUNNING => "TOOL_RUNNING"
  | SUMMARIZING => "SUMMARIZING"
  | TTS_GENERATING => "TTS_GENERATING"
  | DELIVERED => "DELIVERED"
  | FAILED => "FAILED"

/-- The module-level list `TASK_STATES`. -/
def taskStates : List TaskStatus :=
  [RECEIVED, ROUTED, TRANSCRIBING, REFINING, TOOL_QUEUED, TOOL_RUNNING,
   SUMMARIZING, TTS_GENERATING, DELIVERED, FAILED]

/-- Parsing of a status string against `TASK_STATES` (PATCH membership check). -/
def statusOfString (s : String) : Option TaskStatus :=
  taskStates.find? (fun t => t.name == s)

/-- The dict `ALLOWED_TASK_TRANSITIONS`: per state, the set of admissible
next states. -/
def allowedTaskTransitions : TaskStatus → List TaskStatus
  | RECEIVED => [ROUTED, FAILED]
  | ROUTED => [TRANSCRIBING, REFINING, FAILED]
  | TRANSCRIBING => [REFINING, FAILED]
  | REFINING => [TOOL_QUEUED, FAILED]
  | TOOL_QUEUED => [TOOL_RUNNING, FAILED]
  | TOOL_RUNNING => [SUMMARIZING, FAILED]
  | SUMMARIZING => [TTS_GENERATING, DELIVERED, FAILED]
  | TTS_GENERATING => [DELIVERED, FAILED]
  | DELIVERED => []
  | FAILED => []

/-- `validate_task_transition(current, next)`: `none` means the transition is
accepted, `some msg` is the HTTP 400 abort with its message. -/
def validateTaskTransition (current next : TaskStatus) : Option String :=
  if next = current then none
  else if next ∈ allowedTaskTransitions current then none
  else some ("Invalid task status transition from " ++ current.name
    ++ " to " ++ next.name)

/-! ## Task rows, history rows and tool-run rows (tracker database) -/

structure TaskRow where
  id : String
  project_id : String
  input_type : String
  raw_text : Option String
  raw_audio_uri : Option String
  transcript : Option String
  refined_text : Option String
  status : TaskStatus
  final_summary : Option String
  final_audio_uri : Option String
  failure_reason : Option String
  created_at : Nat
  updated_at : Nat
deriving DecidableEq, Repr

structure HistoryRow where
  task_id : String
  from_status : Option TaskStatus
  to_status : TaskStatus
  changed_at : Nat
deriving DecidableEq, Repr

structure ToolRunRow where
  id : String
  task_id : String
  tool_name : String
  status : String
  input : Option (List (String × String))
  output : Option (List (String × String))
  started_at : Option Nat
  finished_at : Option Nat
  created_at : Nat
  updated_at : Nat
deriving DecidableEq, Repr

/-! ## update_task_internal -/

/-- The keyword arguments of `update_task_internal` (each `None` when not
passed). -/
structure InternalPatch where
  status : Option TaskStatus := none
  transcript : Option String := none
  refined_text : Option String := none
  final_summary : Option String := none
  final_audio_uri : Option String := none
  failure_reason : Option String := none
deriving Repr

/-- `if x is not None: updates.append(...)` — a field is overridden exactly
when the keyword argument is not `None`. -/
def overrideField {α : Type} (new old : Option α) : Option α :=
  match new with
  | some v => some v
  | none => old

/-- Whether `update_task_internal` collected any `updates` entries. -/
def InternalPatch.hasUpdates (p : InternalPatch) : Bool :=
  p.status.isSome || p.transcript.isSome || p.refined_text.isSome ||
  p.final_summary.isSome || p.final_audio_uri.isSome || p.failure_reason.isSome

/-- The UPDATE statement built by `update_task_internal` applied to the row. -/
def applyInternal (row : TaskRow) (p : InternalPatch) (now : Nat) : TaskRow :=
  { row with
    status := p.status.getD row.status
    transcript := overrideField p.transcript row.transcript
    refined_text := overrideField p.refined_text row.refined_text
    final_summary := overrideField p.final_summary row.final_summary
    final_audio_uri := overrideField p.final_audio_uri row.final_audio_uri
    failure_reason := overrideField p.failure_reason row.failure_reason
    updated_at := now }

/-- `update_task_internal(connection, task_id, ...)` over a single task row.
Returns the updated row together with the list of history rows inserted by
this call (`[]` or a singleton); `Except.error` is the propagated
`abort(400)` from `validate_task_transition`. -/
def updateTaskInternal (row : TaskRow) (p : InternalPatch) (now : Nat) :
    Except String (TaskRow × List HistoryRow) :=
  let check : Option String :=
    p.status.bind (fun s => validateTaskTransition row.status s)
  match check with
  | some msg => Except.error msg
  | none =>
    if p.hasUpdates then
      let row' : TaskRow := applyInternal row p now
      match p.status with
      | some s =>
        if s ≠ row.status then
          Except.ok (row', [{ task_id := row.id, from_status := some row.status,
                              to_status := s, changed_at := now }])
        else
          Except.ok (row', [])
      | none => Except.ok (row', [])
    else
      Except.ok (row, [])

/-! ## POST /tasks (create_task) -/

/-- The JSON payload of `POST /tasks`; `none` covers both an absent key and
an explicit JSON `null` (In Python both make `payload.get(...)` return
`None`). -/
structure CreateTaskPayload where
  project_id : Option String := none
  input_type : Option String := none
  raw_text : Option String := none
  raw_audio_uri : Option String := none
deriving Repr

/-- `create_task`: validation, row insertion and the synthetic initial
history row.  `projectIds` are the ids present in the `projects` table
(`get_project_or_404`); `taskId` stands for the generated UUID and `now`
for `utc_now_iso()`. -/
def createTask (payload : CreateTaskPayload) (projectIds : List String)
    (taskId : String) (now : Nat) : Except String (TaskRow × HistoryRow) :=
  if !pyTruthy payload.project_id then
    Except.error "Field 'project_id' is required"
  else if payload.input_type ≠ some "text" ∧ payload.input_type ≠ some "voice" then
    Except.error "Field 'input_type' must be one of: text, voice"
  else if payload.input_type = some "text" ∧ !pyTruthy payload.raw_text then
    Except.error "Field 'raw_text' is required for text tasks"
  else if payload.input_type = some "voice" ∧ !pyTruthy payload.raw_audio_uri then
    Except.error "Field 'raw_audio_uri' is required for voice tasks"
  else if payload.project_id.getD "" ∉ projectIds then
    Except.error "Project not found"
  else
    let row : TaskRow :=
      { id := taskId
        project_id := payload.project_id.getD ""
        input_type := payload.input_type.getD ""
        raw_text := payload.raw_text
        raw_audio_uri := payload.raw_audio_uri
        transcript := none
        refined_text := none
        status := RECEIVED
        final_summary := none
        final_audio_uri := none
        failure_reason := none
        created_at := now
        updated_at := now }
    Except.ok (row, { task_id := taskId, from_status := none,
                      to_status := RECEIVED, changed_at := now })

/-! ## PATCH /tasks/id (update_task) -/

/-- Key lookup in a JSON object modelled as an association list (keys are
unique, as in a Python dict). -/
def jKey (payload : List (String × α)) (k : String) : Option α :=
  (payload.find? (fun p => p.1 == k)).map (fun p => p.2)

/-- The PATCH whitelist `updatable_fields` (in dict insertion order). -/
def updatableFields : List String :=
  ["status", "transcript", "refined_text", "final_summary",
   "final_audio_uri", "raw_audio_uri", "failure_reason"]

/-- `payload[key]` when present overrides the column (a JSON `null` stores
SQL `NULL`), otherwise the column is untouched. -/
def patchField (payload : List (String × Option String)) (k : String)
    (old : Option String) : Option String :=
  match jKey payload k with
  | some v => v
  | none => old

/-- How `payload["status"]` is read as a string: a JSON `null` shows up as
Python's `str(None)` in the membership test against `TASK_STATES`. -/
def statusValueStr : Option String → String
  | some s => s
  | none => "None"

/-- The UPDATE statement built by the PATCH handler applied to the row. -/
def applyPatch (row : TaskRow) (payload : List (String × Option String))
    (statusUpdate : Option TaskStatus) (now : Nat) : TaskRow :=
  { row with
    status := statusUpdate.getD row.status
    transcript := patchField payload "transcript" row.transcript
    refined_text := patchField payload "refined_text" row.refined_text
    final_summary := patchField payload "final_summary" row.final_summary
    final_audio_uri := patchField payload "final_audio_uri" row.final_audio_uri
    raw_audio_uri := patchField payload "raw_audio_uri" row.raw_audio_uri
    failure_reason := patchField payload "failure_reason" row.failure_reason
    updated_at := now }

/-- The status part of the PATCH handler: `TASK_STATES` membership and the
transition validator, run before any UPDATE. -/
def patchStatusCheck (row : TaskRow)
    (payload : List (String × Option String)) :
    Except String (Option TaskStatus) :=
  match jKey payload "status" with
  | none => Except.ok none
  | some v =>
    match statusOfString (statusValueStr v) with
    | none => Except.error ("Unknown status '" ++ statusValueStr v ++ "'")
    | some s =>
      match validateTaskTransition row.status s with
      | some msg => Except.error msg
      | none => Except.ok (some s)

/-- The PATCH handler `update_task` over one task row. The payload is the
parsed JSON object: each value is a string or `null`.  Errors are the
`abort(400)` messages. -/
def updateTaskPatch (row : TaskRow) (payload : List (String × Option String))
    (now : Nat) : Except String (TaskRow × List HistoryRow) :=
  let unknownFields := (payload.map (fun p => p.1)).filter
    (fun k => k ∉ updatableFields)
  if unknownFields ≠ [] then
    Except.error ("Unknown fields: " ++ String.intercalate ", " unknownFields)
  else if payload = [] then
    Except.error "No fields to update"
  else
    match patchStatusCheck row payload with
    | Except.error msg => Except.error msg
    | Except.ok statusUpdate =>
      let row' : TaskRow := applyPatch row payload statusUpdate now
      match statusUpdate with
      | some s =>
        if s ≠ row.status then
          Except.ok (row', [{ task_id := row.id, from_status := some row.status,
                              to_status := s, changed_at := now }])
        else
          Except.ok (row', [])
      | none => Except.ok (row', [])

/-! ## Tracker state: one task, its history rows and its tool-run rows -/

structure TrackerState where
  task : TaskRow
  history : List HistoryRow
  toolRuns : List ToolRunRow
  clock : Nat
deriving DecidableEq, Repr

/-- The PATCH endpoint as a state transformer: on any `abort(400)` the
transaction never executed an UPDATE, so the state is returned untouched
together with the HTTP status code. -/
def patchTaskEndpoint (st : TrackerState)
    (payload : List (String × Option String)) : TrackerState × Nat :=
  match updateTaskPatch st.task payload (st.clock + 1) with
  | .error _ => (st, 400)
  | .ok (row', hist) =>
    ({ st with
        task := row'
        history := st.history ++ hist
        clock := st.clock + 1 }, 200)

/-! ## Tracker-side tool-run rows (create_tool_run_internal /
update_tool_run_internal) -/

def createToolRunInternal (taskId toolName : String)
    (inputPayload : Option (List (String × String))) (runId : String)
    (now : Nat) : ToolRunRow :=
  { id := runId
    task_id := taskId
    tool_name := toolName
    status := "QUEUED"
    input := inputPayload
    output := none
    started_at := none
    finished_at := none
    created_at := now
    updated_at := now }

/-- `update_tool_run_internal`: `status` and `output` are always written
(`output` is overwritten with NULL when no payload is given), while
`started_at`/`finished_at` go through `COALESCE(?, old)`. -/
def updateToolRunInternal (run : ToolRunRow) (status : String)
    (outputPayload : Option (List (String × String)))
    (startedAt finishedAt : Option Nat) (now : Nat) : ToolRunRow :=
  { run with
    status := status
    output := outputPayload
    started_at := overrideField startedAt run.started_at
    finished_at := overrideField finishedAt run.finished_at
    updated_at := now }

/-! ## The dispatcher `process_task` -/

/-- `update_task_internal` executed inside its own short transaction. -/
def stUpdateTask (st : TrackerState) (p : InternalPatch) :
    Except String TrackerState :=
  match updateTaskInternal st.task p (st.clock + 1) with
  | .error e => .error e
  | .ok (row', hist) =>
    .ok { st with
          task := row'
          history := st.history ++ hist
          clock := st.clock + 1 }

def stCreateToolRun (st : TrackerState) (toolName : String)
    (inputPayload : Option (List (String × String))) (runId : String) :
    TrackerState :=
  { st with
    toolRuns :=
      st.toolRuns ++ [createToolRunInternal st.task.id toolName inputPayload
        runId (st.clock + 1)]
    clock := st.clock + 1 }

def stUpdateToolRun (st : TrackerState) (runId status : String)
    (outputPayload : Option (List (String × String)))
    (setStarted setFinished : Bool) : TrackerState :=
  let now := st.clock + 1
  { st with
    toolRuns := st.toolRuns.map (fun r =>
      if r.id = runId then
        updateToolRunInternal r status outputPayload
          (if setStarted then some now else none)
          (if setFinished then some now else none) now
      else r)
    clock := now }

/-- The JSON bodies returned by the five collaborators, as seen by
`post_json`: `Except.error` is a raised exception (non-2xx, timeout or a
non-object body), `Except.ok` the parsed object with string values. -/
structure Upstreams where
  asr : Except String (List (String × String))
  refine : Except String (List (String × String))
  tooler : Except String (List (String × String))
  summarizer : Except String (List (String × String))
  tts : Except String (List (String × String))

/-- Step 10 of the pipeline: the final DELIVERED write. -/
def pipelineDeliver (st : TrackerState) (summary : String)
    (audio : Option String) : TrackerState × Option String :=
  match stUpdateTask st
    { final_summary := some summary, final_audio_uri := audio,
      status := some DELIVERED, failure_reason := some "" } with
  | .error e => (st, some e)
  | .ok st' => (st', none)

/-- Steps 4–10 of the pipeline, after the input text has been obtained. -/
def pipelineAfterInput (st : TrackerState) (up : Upstreams) (runId : String)
    (inputText : String) : TrackerState × Option String :=
  let _ := inputText
  match up.refine with
  | .error e => (st, some e)
  | .ok rbody =>
    let refined := pyStrip ((jKey rbody "refined_text").getD "")
    if refined == "" then (st, some "Refine returned empty refined_text")
    else
      match stUpdateTask st
        { refined_text := some refined, status := some TOOL_QUEUED } with
      | .error e => (st, some e)
      | .ok stA =>
        let stB := stCreateToolRun stA "tooler" (some [("text", refined)]) runId
        match stUpdateTask stB { status := some TOOL_RUNNING } with
        | .error e => (stB, some e)
        | .ok stC =>
          let stD := stUpdateToolRun stC runId "RUNNING" none true false
          match up.tooler with
          | .error e => (stD, some e)
          | .ok tbody =>
            let stE := stUpdateToolRun stD runId "SUCCEEDED" (some tbody)
              false true
            match stUpdateTask stE { status := some SUMMARIZING } with
            | .error e => (stE, some e)
            | .ok stF =>
              match up.summarizer with
              | .error e => (stF, some e)
              | .ok sbody =>
                let s1 := (jKey sbody "summary_text").getD ""
                let sVal := if s1 ≠ "" then s1 else (jKey sbody "summary").getD ""
                let summary := pyStrip sVal
                if summary == "" then
                  (stF, some "Summarizer returned empty summary")
                else if stF.task.input_type == "voice" then
                  match stUpdateTask stF
                    { final_summary := some summary,
                      status := some TTS_GENERATING } with
                  | .error e => (stF, some e)
                  | .ok stG =>
                    match up.tts with
                    | .error e => (stG, some e)
                    | .ok ttsbody =>
                      let audio := pyStrip ((jKey ttsbody "audio_uri").getD "")
                      if audio == "" then
                        (stG, some "TTS returned empty audio_uri")
                      else pipelineDeliver stG summary (some audio)
                else pipelineDeliver stF summary none

/-- The body of the `try` block of `process_task` (steps 2–10).  Returns the
state after all committed transactions together with the pending exception
message, if one was raised. -/
def processTaskBody (st0 : TrackerState) (up : Upstreams) (runId : String) :
    TrackerState × Option String :=
  match stUpdateTask st0 { status := some ROUTED } with
  | .error e => (st0, some e)
  | .ok st1 =>
    if st1.task.input_type == "voice" then
      match stUpdateTask st1 { status := some TRANSCRIBING } with
      | .error e => (st1, some e)
      | .ok st2 =>
        match up.asr with
        | .error e => (st2, some e)
        | .ok body =>
          let transcript := pyStrip ((jKey body "transcript").getD "")
          if transcript == "" then (st2, some "ASR returned empty transcript")
          else
            match stUpdateTask st2
              { transcript := some transcript, status := some REFINING,
                failure_reason := some "" } with
            | .error e => (st2, some e)
            | .ok st3 => pipelineAfterInput st3 up runId transcript
    else
      let inputText := pyStrip (st1.task.raw_text.getD "")
      if inputText == "" then (st1, some "Text task has empty raw_text")
      else
        match stUpdateTask st1
          { status := some REFINING, failure_reason := some "" } with
        | .error e => (st1, some e)
        | .ok st3 => pipelineAfterInput st3 up runId inputText

/-- The `except Exception` failure routine of `process_task`: reload the
status and, unless already FAILED, transition to FAILED with the truncated
reason.  If the FAILED transition itself is rejected by the validator the
abort escapes and nothing is written. -/
def failTask (st : TrackerState) (errMsg : String) : TrackerState :=
  let reason := if pyStrip errMsg == "" then "Unknown pipeline error"
    else pyStrip errMsg
  if st.task.status ≠ FAILED then
    match stUpdateTask st
      { status := some FAILED,
        failure_reason := some (pyTruncate reason 500) } with
    | .ok st' => st'
    | .error _ => st
  else st

/-- `process_task` for an existing task: run the pipeline body and invoke
the failure routine on any raised exception. -/
def processTask (st : TrackerState) (up : Upstreams) (runId : String) :
    TrackerState :=
  match processTaskBody st up runId with
  | (st', none) => st'
  | (st', some e) => failTask st' e

/-! ## Tool Run Supervisor (services/tooler/app.py) -/

/-- JSON values appearing in tool-run `input` objects.  Numeric strings
passed for `sleep_seconds` are not modelled (only plain integers, the
default `1` included). -/
inductive JVal where
  | jstr (s : String)
  | jint (n : Int)
  | jnull
deriving DecidableEq, Repr

/-- Python's `str(...)` on the modelled JSON values. -/
def JVal.pyStr : JVal → String
  | .jstr s => s
  | .jint n => toString n
  | .jnull => "None"

/-- Python's `float(...)` on the modelled JSON values (`None` raises, so
does a non-numeric string; numeric strings are not modelled). -/
def JVal.pyFloatInt : JVal → Option Int
  | .jint n => some n
  | _ => none

/-- The result type of an adapter: `{command: [argv], startup_error: null}`
or `{command: null, startup_error: "..."}`. -/
structure ToolAdapterResult where
  command : Option (List String) := none
  startup_error : Option String := none
deriving DecidableEq, Repr

/-- What the supervisor can observe about a path on its filesystem. -/
structure FsInfo where
  present : Bool
  isDir : Bool
  hasGitChild : Bool
deriving Repr

/-- The environment of the supervisor process: filesystem, working
directory, today's date (for the autobot branch), and the codex
configuration. -/
structure ToolerWorld where
  fs : String → FsInfo
  cwd : String
  today : String
  pushEnabled : Bool
  runAsUser : String
  runAsUserExists : Bool
  codexMock : Bool
  codexBinaryFound : Bool
  codexAuthFileExists : Bool
  codexModeEnv : String
  codexModelEnv : String

/-- The Python source of the git-autocommit child script (the `-c` argument
of the built argv). -/
def gitAutocommitScript : String :=
  "import subprocess\nimport sys\n\nworkdir, branch, subject, push_enabled = sys.argv[1:5]\n\ndef run(*args: str) -> str:\n    completed = subprocess.run(\n        [\"git\", \"-C\", workdir, *args],\n        check=True,\n        text=True,\n        capture_output=True,\n    )\n    return completed.stdout.strip()\n\nrun(\"checkout\", \"-B\", branch)\nrun(\"add\", \"-A\")\n\nhas_staged_changes = subprocess.run(\n    [\"git\", \"-C\", workdir, \"diff\", \"--cached\", \"--quiet\"],\n    check=False,\n).returncode != 0\n\nif has_staged_changes:\n    run(\"commit\", \"-m\", subject)\n\ncommit_hash = run(\"rev-parse\", \"HEAD\")\nprint(f\"__BRANCH__={branch}\")\nprint(f\"__COMMIT_HASH__={commit_hash}\")\n\nif push_enabled == \"1\":\n    run(\"push\", \"origin\", branch)"

/-- `_build_git_autocommit_adapter`.  Path resolution (`expanduser` /
`resolve`) is abstracted: the stripped workdir string is the key into the
filesystem view. -/
def buildGitAutocommitAdapter (w : ToolerWorld)
    (payload : List (String × JVal)) : Except String ToolAdapterResult := do
  let workdirRaw := pyStrip ((jKey payload "workdir").getD (.jstr w.cwd)).pyStr
  if workdirRaw == "" then
    throw "Field 'input.workdir' must be a non-empty string"
  let info := w.fs workdirRaw
  if !(info.present && info.isDir) then
    throw "Field 'input.workdir' must point to an existing directory"
  if !info.hasGitChild then
    let msg := "Directory '" ++ workdirRaw ++ "' is not a git repository"
    pure { startup_error := some msg }
  else
    let subject := pyStrip
      ((jKey payload "subject").getD (.jstr "chore: autobot update")).pyStr
    if subject == "" then
      throw "Field 'input.subject' must be a non-empty string"
    let branch := "autobot/" ++ w.today
    pure { command := some ["python", "-c", gitAutocommitScript, workdirRaw,
      branch, subject, if w.pushEnabled then "1" else "0"] }

/-- `_build_dummy_command`. -/
def buildDummyCommand (payload : List (String × JVal)) :
    Except String (List String) := do
  let message := pyStrip (pyReplaceChar
    (((jKey payload "message").getD (.jstr "dummy tool started")).pyStr)
    '\n' ' ')
  let sleepRaw := (jKey payload "sleep_seconds").getD (.jint 1)
  let sleepValue ← match sleepRaw.pyFloatInt with
    | some x => pure (max 0 (min 30 x))
    | none => throw "Field 'input.sleep_seconds' must be numeric"
  let script := "echo \"start: " ++ pyReplaceChar message '\"' '\''
    ++ "\"; echo \"working...\"; sleep " ++ toString sleepValue
    ++ ".0; echo \"done\""
  pure ["bash", "-c", script]

def buildDummyAdapter (payload : List (String × JVal)) :
    Except String ToolAdapterResult := do
  let cmd ← buildDummyCommand payload
  pure { command := some cmd }

/-- `_build_codex_adapter`. -/
def buildCodexAdapter (w : ToolerWorld) (payload : List (String × JVal)) :
    Except String ToolAdapterResult := do
  let prompt := pyStrip ((jKey payload "prompt").getD (.jstr "")).pyStr
  if prompt == "" then
    throw "Field 'input.prompt' is required for tool 'codex'"
  let workdirRaw := pyStrip ((jKey payload "workdir").getD (.jstr w.cwd)).pyStr
  if workdirRaw == "" then
    throw "Field 'input.workdir' must be a non-empty string"
  let info := w.fs workdirRaw
  if !(info.present && info.isDir) then
    throw "Field 'input.workdir' must point to an existing directory"
  let skipGitRepoCheck := match jKey payload "skip_git_repo_check" with
    | some v => decide (v ≠ .jnull ∧ v ≠ .jstr "" ∧ v ≠ .jint 0)
    | none => false
  if !skipGitRepoCheck && !info.hasGitChild then
    let msg := "Codex requires a Git repository workdir. "
      ++ "Point 'input.workdir' to a Git repo, or explicitly opt-in to skip with "
      ++ "'input.skip_git_repo_check=true'."
    pure { startup_error := some msg }
  else if w.codexMock then
    let cmd := ["bash", "-lc",
      "echo 'codex-mock: deterministic output'; echo 'progress: mock runner' >&2"]
    pure { command := some cmd }
  else if !w.codexBinaryFound then
    let msg := "Codex CLI binary is not available in tooler container. "
      ++ "Install @openai/codex so 'codex exec' can run."
    pure { startup_error := some msg }
  else if !w.codexAuthFileExists then
    let msg := "Codex is not authenticated. Run `codex login` on the host and mount ~/.codex "
      ++ "into tooler (CODEX_HOME)."
    pure { startup_error := some msg }
  else do
    let modeRaw := match jKey payload "mode" with
      | some v => if v = .jnull ∨ v = .jstr "" ∨ v = .jint 0 then w.codexModeEnv
        else v.pyStr
      | none => w.codexModeEnv
    let mode0 := (pyStrip modeRaw).toLower
    let mode := if mode0 == "" then "readonly" else mode0
    if mode ≠ "readonly" ∧ mode ≠ "full-auto" then
      throw "Field 'input.mode' must be one of: readonly, full-auto"
    let model := pyStrip (match jKey payload "model" with
      | some v => if v = .jnull ∨ v = .jstr "" ∨ v = .jint 0 then w.codexModelEnv
        else v.pyStr
      | none => w.codexModelEnv)
    let approvalPolicy := pyStrip ((jKey payload "approval_policy").getD (.jstr "")).pyStr
    let jsonOutput := match jKey payload "json" with
      | some v => decide (v ≠ .jnull ∧ v ≠ .jstr "" ∧ v ≠ .jint 0)
      | none => false
    let cmd := ["codex", "exec", "--cd", workdirRaw]
      ++ (if model ≠ "" then ["--model", model] else [])
      ++ (if approvalPolicy ≠ "" then ["--approval-policy", approvalPolicy] else [])
      ++ (if mode == "full-auto" then ["--full-auto"] else ["--sandbox", "read-only"])
      ++ (if skipGitRepoCheck then ["--skip-git-repo-check"] else [])
      ++ (if jsonOutput then ["--json"] else [])
      ++ [prompt]
    pure { command := some cmd }

/-- `_resolve_tool_adapter`: registry lookup plus the two sanity checks on
the adapter's result (`abort(500)` on a malformed result). -/
def resolveToolAdapter (w : ToolerWorld) (toolName : String)
    (payload : List (String × JVal)) : Except String ToolAdapterResult := do
  let result ← match toolName with
    | "dummy" => buildDummyAdapter payload
    | "codex" => buildCodexAdapter w payload
    | "git-autocommit" => buildGitAutocommitAdapter w payload
    | _ => throw ("Tool '" ++ toolName
        ++ "' is not allowed. Allowed tools: codex, dummy, git-autocommit")
  if result.command = none ∧ result.startup_error = none then
    throw ("Tool '" ++ toolName ++ "' adapter returned invalid configuration")
  if result.command ≠ none ∧ result.startup_error ≠ none then
    throw ("Tool '" ++ toolName ++ "' adapter returned ambiguous configuration")
  pure result

/-! ## In-memory supervisor tool runs and the runner thread -/

/-- The in-memory `ToolRun` dataclass of the supervisor.  The contents of
`stdout.log` / `stderr.log` are carried as lists of lines in the record. -/
structure SupToolRun where
  id : String
  tool_name : String
  status : String
  stdout_path : String
  stderr_path : String
  stdoutLog : List String
  stderrLog : List String
  artifacts : List String
  callback_url : Option String := none
  pid : Option Nat := none
  exit_code : Option Int := none
  callback_sent : Bool := false
  startup_error : Option String := none
  branch : Option String := none
  commit_hash : Option String := none
  started_at : Option Nat := none
  finished_at : Option Nat := none
deriving DecidableEq, Repr

/-- `_tail_lines`: the last `n` lines joined by newlines (Python's
`lines[-n:]`, which is the whole list when `n == 0`). -/
def tailLines (lines : List String) (n : Nat) : String :=
  String.intercalate "\n" (if n == 0 then lines else lines.drop (lines.length - n))

/-- `_send_callback`: `delivered` tells whether the POST to the callback URL
succeeded.  No-op when no URL is set or the callback was already sent. -/
def sendCallback (run : SupToolRun) (delivered : Bool) : SupToolRun :=
  if run.callback_url = none ∨ run.callback_sent then run
  else if delivered then { run with callback_sent := true }
  else run

/-- What the operating system does when the runner thread reaches
`subprocess.Popen`: either the spawn raises (message), or the subprocess
runs to completion with a pid, an exit code and the two output streams. -/
structure SpawnWorld where
  spawn : Except String (Nat × Int × List String × List String)
  callbackDelivered : Bool
  startedTime : Nat
  finishedTime : Nat

/-- What `_runner_thread` produced: the final run record, whether a
subprocess was ever spawned, and whether the callback routine
(`_send_callback`) was invoked. -/
structure RunnerOutcome where
  run : SupToolRun
  spawned : Bool
  callbackInvoked : Bool
deriving Repr

/-- One marker-scan step of `_runner_thread` for git-autocommit stdout
lines (`line.split("=", 1)[1].strip() or None`, last match wins). -/
def scanMarkerLine (acc : Option String × Option String) (line : String) :
    Option String × Option String :=
  let acc' :=
    if line.startsWith "__BRANCH__=" then
      let v := pyStrip (line.drop "__BRANCH__=".length)
      ((if v == "" then none else some v), acc.2)
    else acc
  if line.startsWith "__COMMIT_HASH__=" then
    let v := pyStrip (line.drop "__COMMIT_HASH__=".length)
    (acc'.1, if v == "" then none else some v)
  else acc'

/-- `_runner_thread` for a registered run. -/
def runnerThread (w : ToolerWorld) (sp : SpawnWorld) (run0 : SupToolRun)
    (command : Option (List String)) : RunnerOutcome :=
  let run := { run0 with status := "RUNNING", started_at := some sp.startedTime }
  match run.startup_error with
  | some e =>
    let run := { run with
      status := "FAILED"
      exit_code := some (-1)
      finished_at := some sp.finishedTime
      stderrLog := [e] }
    { run := sendCallback run sp.callbackDelivered, spawned := false,
      callbackInvoked := true }
  | none =>
    match command with
    | none =>
      let run := { run with
        status := "FAILED"
        exit_code := some (-1)
        finished_at := some sp.finishedTime
        stderrLog := ["Tool command is not configured"] }
      { run := sendCallback run sp.callbackDelivered, spawned := false,
        callbackInvoked := true }
    | some _ =>
      if w.runAsUser ≠ "" ∧ !w.runAsUserExists then
        let run := { run with
          status := "FAILED"
          exit_code := some (-1)
          finished_at := some sp.finishedTime
          stderrLog := ["Configured unix user '" ++ w.runAsUser
            ++ "' does not exist"] }
        { run := sendCallback run sp.callbackDelivered, spawned := false,
          callbackInvoked := true }
      else
        -- Both artifact files are opened with mode "w", truncating them.
        let run := { run with stdoutLog := [], stderrLog := [] }
        match sp.spawn with
        | .error e =>
          let run := { run with
            status := "FAILED"
            exit_code := some (-1)
            finished_at := some sp.finishedTime
            stderrLog := ["Failed to start process: " ++ e] }
          { run := sendCallback run sp.callbackDelivered, spawned := false,
            callbackInvoked := true }
        | .ok (pid, code, outLines, errLines) =>
          let run := { run with
            pid := some pid
            exit_code := some code
            finished_at := some sp.finishedTime
            status := if code = 0 then "SUCCEEDED" else "FAILED"
            stdoutLog := outLines
            stderrLog := errLines }
          let run :=
            if run.tool_name == "git-autocommit" then
              let markers := outLines.foldl scanMarkerLine (run.branch, run.commit_hash)
              let run := { run with branch := markers.1, commit_hash := markers.2 }
              let run :=
                match run.branch with
                | some b =>
                  if ("branch:" ++ b) ∉ run.artifacts then
                    { run with artifacts := run.artifacts ++ ["branch:" ++ b] }
                  else run
                | none => run
              match run.commit_hash with
              | some c =>
                if ("commit_hash:" ++ c) ∉ run.artifacts then
                  { run with artifacts := run.artifacts ++ ["commit_hash:" ++ c] }
                else run
              | none => run
            else run
          { run := sendCallback run sp.callbackDelivered, spawned := true,
            callbackInvoked := true }

/-- `POST /tool-runs` (async path) up to the start of the runner thread:
resolve the adapter, build the run record and the artifact paths.  Errors
are `abort(400)` (missing tool name, adapter rejection, unknown tool). -/
def createToolRunSup (w : ToolerWorld) (artifactsDir : String)
    (toolNameField : Option JVal) (inputField : Option (List (String × JVal)))
    (callbackUrlField : Option JVal) (runId : String) :
    Except String (SupToolRun × Option (List String)) := do
  let toolName := pyStrip ((toolNameField.getD (.jstr "")).pyStr)
  if toolName == "" then
    throw "Field 'tool_name' is required"
  let inputPayload := inputField.getD []
  let callbackUrl :=
    let s := pyStrip ((callbackUrlField.getD (.jstr "")).pyStr)
    if s == "" then none else some s
  let adapterResult ← resolveToolAdapter w toolName inputPayload
  let stdoutPath := artifactsDir ++ "/" ++ runId ++ "/stdout.log"
  let stderrPath := artifactsDir ++ "/" ++ runId ++ "/stderr.log"
  let run : SupToolRun :=
    { id := runId
      tool_name := toolName
      status := "QUEUED"
      stdout_path := stdoutPath
      stderr_path := stderrPath
      stdoutLog := []
      stderrLog := []
      callback_url := callbackUrl
      artifacts := [stdoutPath, stderrPath]
      startup_error := adapterResult.startup_error }
  pure (run, adapterResult.command)

/-! ## POST /tooler/run (synchronous path) -/

/-- The JSON payload of `POST /tooler/run`.  `none` stands for an absent
key; for `tool_name` and `text` an explicit JSON `null` is `jnull`; a
non-object `input` is treated like an absent one, as in the handler. -/
structure RunToolerPayload where
  tool_name : Option JVal := none
  text : Option JVal := none
  input : Option (List (String × JVal)) := none

/-- `str(payload.get("tool_name") or "dummy").strip() or "dummy"`. -/
def resolveToolName (v : Option JVal) : String :=
  let base := match v with
    | none => "dummy"
    | some x => if x = .jnull ∨ x = .jstr "" ∨ x = .jint 0 then "dummy" else x.pyStr
  let stripped := pyStrip base
  if stripped == "" then "dummy" else stripped

/-- The copy of a non-blank top-level `text` into `input.message` (only
when `message` is not already present). -/
def mergeTextIntoInput (text : Option JVal) (ip : List (String × JVal)) :
    List (String × JVal) :=
  match text with
  | some (.jstr s) =>
    if pyStrip s ≠ "" ∧ (jKey ip "message").isNone then
      ip ++ [("message", .jstr (pyStrip s))]
    else ip
  | _ => ip

/-- The tool name and effective input object that `run_tooler` hands to
`_run_sync_tool`. -/
def runToolerResolve (payload : RunToolerPayload) :
    String × List (String × JVal) :=
  (resolveToolName payload.tool_name,
   mergeTextIntoInput payload.text (payload.input.getD []))

/-- `_run_sync_tool` up to the subprocess invocation: the argv it executes,
or the `abort` that prevents any execution (400 on a startup error, 400 on
adapter rejection, 400 on an unknown tool). -/
def runSyncToolCommand (w : ToolerWorld) (toolName : String)
    (ip : List (String × JVal)) : Except String (List String) := do
  let adapterResult ← resolveToolAdapter w toolName ip
  match adapterResult.startup_error with
  | some e => throw e
  | none =>
    match adapterResult.command with
    | some c => pure c
    | none => throw ("Tool '" ++ toolName ++ "' command is not configured")

/-! ## Helper lemmas -/

lemma validateTaskTransition_self (s : TaskStatus) :
    validateTaskTransition s s = none := by
  simp [validateTaskTransition]

lemma updateTaskInternal_invalid (row : TaskRow) (p : InternalPatch)
    (now : Nat) (s : TaskStatus) (msg : String) (hs : p.status = some s)
    (hv : validateTaskTransition row.status s = some msg) :
    updateTaskInternal row p now = Except.error msg := by
  unfold updateTaskInternal
  rw [hs]
  simp only [Option.some_bind, hv]

lemma updateTaskInternal_ok (row : TaskRow) (p : InternalPatch) (now : Nat)
    (s : TaskStatus) (hs : p.status = some s)
    (hv : validateTaskTransition row.status s = none) :
    updateTaskInternal row p now =
      Except.ok (applyInternal row p now,
        if s = row.status then []
        else [{ task_id := row.id, from_status := some row.status,
                to_status := s, changed_at := now }]) := by
  unfold updateTaskInternal
  rw [hs]
  have hup : p.hasUpdates = true := by
    simp [InternalPatch.hasUpdates, hs]
  simp only [Option.some_bind, hv, hup]
  by_cases h : s = row.status <;> simp [h, hv]

lemma updateTaskInternal_ok_valid (row : TaskRow) (p : InternalPatch)
    (now : Nat) (s : TaskStatus) (out : TaskRow × List HistoryRow)
    (hs : p.status = some s)
    (hok : updateTaskInternal row p now = Except.ok out) :
    validateTaskTransition row.status s = none := by
  cases hv : validateTaskTransition row.status s with
  | none => rfl
  | some msg =>
    rw [updateTaskInternal_invalid row p now s msg hs hv] at hok
    exact absurd hok (by simp)

lemma jKey_ne_nil {α : Type} (payload : List (String × α)) (k : String)
    (v : α) (h : jKey payload k = some v) : payload ≠ [] := by
  intro he
  rw [he] at h
  simp [jKey] at h

lemma patchStatusCheck_invalid (row : TaskRow)
    (payload : List (String × Option String))
    (v : Option String) (s : TaskStatus) (msg : String)
    (hk : jKey payload "status" = some v)
    (hparse : statusOfString (statusValueStr v) = some s)
    (hv : validateTaskTransition row.status s = some msg) :
    patchStatusCheck row payload = Except.error msg := by
  unfold patchStatusCheck
  rw [hk]
  simp [hparse, hv]

lemma updateTaskPatch_unknown (row : TaskRow)
    (payload : List (String × Option String)) (now : Nat)
    (h : (payload.map (fun p => p.1)).filter
      (fun k => k ∉ updatableFields) ≠ []) :
    updateTaskPatch row payload now =
      Except.error ("Unknown fields: " ++ String.intercalate ", "
        ((payload.map (fun p => p.1)).filter (fun k => k ∉ updatableFields))) := by
  simp only [updateTaskPatch]
  rw [if_pos h]

lemma updateTaskPatch_invalid (row : TaskRow)
    (payload : List (String × Option String)) (now : Nat)
    (v : Option String) (s : TaskStatus) (msg : String)
    (hfields : (payload.map (fun p => p.1)).filter
      (fun k => k ∉ updatableFields) = [])
    (hk : jKey payload "status" = some v)
    (hparse : statusOfString (statusValueStr v) = some s)
    (hv : validateTaskTransition row.status s = some msg) :
    updateTaskPatch row payload now = Except.error msg := by
  have hne := jKey_ne_nil payload "status" v hk
  simp only [updateTaskPatch]
  rw [if_neg (by rw [hfields]; simp), if_neg hne,
    patchStatusCheck_invalid row payload v s msg hk hparse hv]

lemma updateTaskPatch_ok_valid (row : TaskRow)
    (payload : List (String × Option String)) (now : Nat)
    (v : Option String) (s : TaskStatus) (out : TaskRow × List HistoryRow)
    (hk : jKey payload "status" = some v)
    (hparse : statusOfString (statusValueStr v) = some s)
    (hok : updateTaskPatch row payload now = Except.ok out) :
    validateTaskTransition row.status s = none := by
  cases hv : validateTaskTransition row.status s with
  | none => rfl
  | some msg =>
    exfalso
    by_cases hfields : (payload.map (fun p => p.1)).filter
        (fun k => k ∉ updatableFields) = []
    · rw [updateTaskPatch_invalid row payload now v s msg hfields hk hparse hv]
        at hok
      exact Except.noConfusion hok
    · rw [updateTaskPatch_unknown row payload now hfields] at hok
      exact Except.noConfusion hok

lemma updateTaskInternal_none_status (row : TaskRow) (p : InternalPatch)
    (now : Nat) (hs : p.status = none) :
    updateTaskInternal row p now =
      Except.ok ((if p.hasUpdates then applyInternal row p now else row), []) := by
  unfold updateTaskInternal
  rw [hs]
  by_cases hup : p.hasUpdates <;> simp [hup, hs]

lemma patchStatusCheck_none (row : TaskRow)
    (payload : List (String × Option String))
    (hk : jKey payload "status" = none) :
    patchStatusCheck row payload = Except.ok none := by
  unfold patchStatusCheck
  rw [hk]

lemma updateTaskPatch_check_error (row : TaskRow)
    (payload : List (String × Option String)) (now : Nat) (msg : String)
    (hfields : (payload.map (fun p => p.1)).filter
      (fun k => k ∉ updatableFields) = [])
    (hne : payload ≠ [])
    (hcheck : patchStatusCheck row payload = Except.error msg) :
    updateTaskPatch row payload now = Except.error msg := by
  simp only [updateTaskPatch]
  rw [if_neg (by rw [hfields]; simp), if_neg hne, hcheck]

lemma updateTaskPatch_ok_eq (row : TaskRow)
    (payload : List (String × Option String)) (now : Nat)
    (statusUpdate : Option TaskStatus)
    (hfields : (payload.map (fun p => p.1)).filter
      (fun k => k ∉ updatableFields) = [])
    (hne : payload ≠ [])
    (hcheck : patchStatusCheck row payload = Except.ok statusUpdate) :
    updateTaskPatch row payload now =
      Except.ok (applyPatch row payload statusUpdate now,
        match statusUpdate with
        | some s =>
          if s = row.status then []
          else [{ task_id := row.id, from_status := some row.status,
                  to_status := s, changed_at := now }]
        | none => []) := by
  simp only [updateTaskPatch]
  rw [if_neg (by rw [hfields]; simp), if_neg hne]
  simp only [hcheck]
  cases statusUpdate with
  | none => rfl
  | some s => by_cases h : s = row.status <;> simp [h]

/-! ## The transition table as written in spec section 4.1 -/

/-- The forward-transition lines of the table in spec section 4.1. -/
def spec41Forward : List (TaskStatus × TaskStatus) :=
  [(RECEIVED, ROUTED),
   (ROUTED, TRANSCRIBING), (ROUTED, REFINING),
   (TRANSCRIBING, REFINING),
   (REFINING, TOOL_QUEUED),
   (TOOL_QUEUED, TOOL_RUNNING),
   (TOOL_RUNNING, SUMMARIZING),
   (SUMMARIZING, TTS_GENERATING), (SUMMARIZING, DELIVERED),
   (TTS_GENERATING, DELIVERED)]

/-- The allowed-transition table of spec section 4.1, reading its two
sentences together: the listed forward edges, plus an edge to FAILED from
every state that is not terminal (the terminal-states sentence restricts
the parenthetical "any state may also move to FAILED"). -/
def spec41AllowedPair (c n : TaskStatus) : Bool :=
  decide ((c, n) ∈ spec41Forward) ||
    (decide (n = FAILED) && !(decide (c = DELIVERED) || decide (c = FAILED)))

/-- Sample rows and states shared by the witnesses below. -/
def sampleTextRow : TaskRow :=
  { id := "t1"
    project_id := "p1"
    input_type := "text"
    raw_text := some "Deploy v2"
    raw_audio_uri := none
    transcript := none
    refined_text := none
    status := RECEIVED
    final_summary := none
    final_audio_uri := none
    failure_reason := none
    created_at := 0
    updated_at := 0 }

/-! ## Claim C2 -/

/-- Claim C2: `validate_task_transition(current, next)` succeeds exactly
when `next = current` or the pair is in the allowed table of spec
section 4.1; every other pair fails with the invalid-transition error; and
the same validator governs both `update_task_internal` (every
dispatcher-driven status change) and the PATCH endpoint: each of them
propagates the validator's error verbatim and can only succeed with a
status change the validator accepts, and a no-op status update appends no
history row. -/
theorem claim_c2_transition_validator :
    (∀ c n, validateTaskTransition c n = none ↔
      (n = c ∨ spec41AllowedPair c n = true))
    ∧ (∀ row p now s msg, p.status = some s →
        validateTaskTransition row.status s = some msg →
        updateTaskInternal row p now = Except.error msg)
    ∧ (∀ row p now s out, p.status = some s →
        updateTaskInternal row p now = Except.ok out →
        validateTaskTransition row.status s = none)
    ∧ (∀ row p now out, p.status = some row.status →
        updateTaskInternal row p now = Except.ok out → out.2 = [])
    ∧ (∀ row payload now v s msg,
        (payload.map (fun q => q.1)).filter (fun k => k ∉ updatableFields) = [] →
        jKey payload "status" = some v →
        statusOfString (statusValueStr v) = some s →
        validateTaskTransition row.status s = some msg →
        updateTaskPatch row payload now = Except.error msg)
    ∧ (∀ row payload now v s out,
        jKey payload "status" = some v →
        statusOfString (statusValueStr v) = some s →
        updateTaskPatch row payload now = Except.ok out →
        validateTaskTransition row.status s = none) := by
  refine ⟨by decide, updateTaskInternal_invalid, updateTaskInternal_ok_valid,
    ?_, updateTaskPatch_invalid, updateTaskPatch_ok_valid⟩
  intro row p now out hs hok
  rw [updateTaskInternal_ok row p now row.status hs
    (validateTaskTransition_self row.status)] at hok
  rw [if_pos rfl] at hok
  cases hok
  rfl

/-- Witness for claim C2 at concrete inputs: an invalid internal update and
an invalid PATCH both surface the validator's message. -/
theorem claim_c2_transition_validator_witness :
    updateTaskInternal sampleTextRow { status := some TRANSCRIBING } 1
      = Except.error
        "Invalid task status transition from RECEIVED to TRANSCRIBING"
    ∧ updateTaskPatch sampleTextRow [("status", some "REFINING")] 1
      = Except.error
        "Invalid task status transition from RECEIVED to REFINING" := by
  constructor
  · exact claim_c2_transition_validator.2.1 sampleTextRow
      { status := some TRANSCRIBING } 1 TRANSCRIBING _ rfl (by decide)
  · exact claim_c2_transition_validator.2.2.2.2.1 sampleTextRow
      [("status", some "REFINING")] 1 (some "REFINING") REFINING _
      (by decide) (by decide) (by decide) (by decide)

/-! ## Claim C3 -/

/-- Claim C3 counterexample: it is not true that every state may move to
FAILED — the validator rejects DELIVERED → FAILED. -/
theorem claim_c3_any_state_to_failed_counterexample :
    ¬ (∀ s : TaskStatus, validateTaskTransition s FAILED = none)
    ∧ validateTaskTransition DELIVERED FAILED =
        some "Invalid task status transition from DELIVERED to FAILED" := by
  decide

/-- Claim C3 (amended): every state except DELIVERED may move to FAILED
(for FAILED itself only as the accepted no-op), and the terminal states
DELIVERED and FAILED admit no outgoing transition to any different
state. -/
theorem claim_c3_terminal_states :
    (∀ s : TaskStatus, s ≠ DELIVERED → s ≠ FAILED →
      validateTaskTransition s FAILED = none)
    ∧ validateTaskTransition FAILED FAILED = none
    ∧ (∀ s t : TaskStatus, (s = DELIVERED ∨ s = FAILED) → t ≠ s →
        validateTaskTransition s t ≠ none) := by
  decide

/-- Witness for claim C3 at concrete states. -/
theorem claim_c3_terminal_states_witness :
    validateTaskTransition RECEIVED FAILED = none
    ∧ validateTaskTransition DELIVERED REFINING ≠ none :=
  ⟨claim_c3_terminal_states.1 RECEIVED (by decide) (by decide),
   claim_c3_terminal_states.2.2 DELIVERED REFINING (Or.inl rfl) (by decide)⟩

/-! ## Claim C4 -/

/-- Claim C4 counterexample: `POST /tasks` accepts a text task that also
carries `raw_audio_uri`; the stored row has both raw fields non-null, so
the XOR invariant fails already at creation. -/
theorem claim_c4_raw_xor_counterexample :
    (createTask
        { project_id := some "p1", input_type := some "text",
          raw_text := some "hi", raw_audio_uri := some "file:///x.ogg" }
        ["p1"] "t9" 5).map
        (fun out => (out.1.input_type, out.1.raw_text, out.1.raw_audio_uri))
      = Except.ok ("text", some "hi", some "file:///x.ogg") := by
  rfl

/-- Claim C4 (amended): every task row accepted by `POST /tasks` has a
valid `input_type` and a truthy raw field matching it (voice requires
`raw_audio_uri`, text requires `raw_text`); the opposite raw field is
stored as supplied and is not forced to null, so the XOR of the claim is
not enforced (and `raw_audio_uri` stays PATCHable afterwards). -/
theorem claim_c4_raw_input_fields :
    ∀ payload projectIds taskId now row hist,
      createTask payload projectIds taskId now = Except.ok (row, hist) →
      (row.input_type = "text" ∨ row.input_type = "voice")
      ∧ (row.input_type = "text" → pyTruthy row.raw_text = true)
      ∧ (row.input_type = "voice" → pyTruthy row.raw_audio_uri = true) := by
  intro payload projectIds taskId now row hist hok
  unfold createTask at hok
  split_ifs at hok with h1 h2 h3 h4 h5
  simp only [Except.ok.injEq, Prod.mk.injEq] at hok
  obtain ⟨hrow, hhist⟩ := hok
  subst hrow
  by_cases ht : payload.input_type = some "text"
  · refine ⟨Or.inl (by simp [ht]), fun _ => ?_, fun hv => ?_⟩
    · simp [ht] at h3
      simpa using h3
    · simp [ht] at hv
  · have hvo : payload.input_type = some "voice" := by
      by_contra hno
      exact h2 ⟨ht, hno⟩
    refine ⟨Or.inr (by simp [hvo]), fun hx => ?_, fun _ => ?_⟩
    · simp [hvo] at hx
    · simp [hvo] at h4
      simpa using h4

/-- The row and history row produced by a concrete accepted voice-task
creation (used by witnesses). -/
def sampleVoiceCreatedRow : TaskRow :=
  { id := "t10"
    project_id := "p1"
    input_type := "voice"
    raw_text := none
    raw_audio_uri := some "file:///v.ogg"
    transcript := none
    refined_text := none
    status := RECEIVED
    final_summary := none
    final_audio_uri := none
    failure_reason := none
    created_at := 7
    updated_at := 7 }

def sampleVoiceCreatedHist : HistoryRow :=
  { task_id := "t10", from_status := none, to_status := RECEIVED,
    changed_at := 7 }

/-- Witness for claim C4 (amended) at a concrete accepted voice task. -/
theorem claim_c4_raw_input_fields_witness :
    (sampleVoiceCreatedRow.input_type = "text"
      ∨ sampleVoiceCreatedRow.input_type = "voice")
    ∧ (sampleVoiceCreatedRow.input_type = "text" →
        pyTruthy sampleVoiceCreatedRow.raw_text = true)
    ∧ (sampleVoiceCreatedRow.input_type = "voice" →
        pyTruthy sampleVoiceCreatedRow.raw_audio_uri = true) :=
  claim_c4_raw_input_fields
    { project_id := some "p1", input_type := some "voice",
      raw_text := none, raw_audio_uri := some "file:///v.ogg" }
    ["p1"] "t10" 7 sampleVoiceCreatedRow sampleVoiceCreatedHist (by rfl)

/-! ## Claim C5 -/

/-- Claim C5: every status change to a different state — via
`update_task_internal` (the dispatcher's writes) or via PATCH — appends
exactly one history row whose `from_status` is the status held immediately
before; a no-op status update or a non-status update appends none; and
task creation appends the single synthetic row (null → RECEIVED). -/
theorem claim_c5_history_append :
    (∀ row p now out, updateTaskInternal row p now = Except.ok out →
      out.2 = (match p.status with
        | some s =>
          if s = row.status then ([] : List HistoryRow)
          else [{ task_id := row.id, from_status := some row.status,
                  to_status := s, changed_at := now }]
        | none => []))
    ∧ (∀ row payload now out, updateTaskPatch row payload now = Except.ok out →
      out.2 = (match jKey payload "status" with
        | some v =>
          (match statusOfString (statusValueStr v) with
           | some s =>
             if s = row.status then ([] : List HistoryRow)
             else [{ task_id := row.id, from_status := some row.status,
                     to_status := s, changed_at := now }]
           | none => [])
        | none => []))
    ∧ (∀ payload projectIds taskId now row hist,
        createTask payload projectIds taskId now = Except.ok (row, hist) →
        hist = { task_id := taskId, from_status := none,
                 to_status := RECEIVED, changed_at := now }) := by
  refine ⟨?_, ?_, ?_⟩
  · intro row p now out hok
    cases hps : p.status with
    | some s =>
      have hv := updateTaskInternal_ok_valid row p now s out hps hok
      rw [updateTaskInternal_ok row p now s hps hv] at hok
      injection hok with h
      rw [← h]
    | none =>
      rw [updateTaskInternal_none_status row p now hps] at hok
      injection hok with h
      rw [← h]
  · intro row payload now out hok
    by_cases hfields : (payload.map (fun q => q.1)).filter
        (fun k => k ∉ updatableFields) = []
    · by_cases hne : payload = []
      · subst hne
        simp [updateTaskPatch] at hok
      · cases hcheck : patchStatusCheck row payload with
        | error msg =>
          rw [updateTaskPatch_check_error row payload now msg hfields hne
            hcheck] at hok
          exact Except.noConfusion hok
        | ok statusUpdate =>
          rw [updateTaskPatch_ok_eq row payload now statusUpdate hfields hne
            hcheck] at hok
          injection hok with h
          rw [← h]
          cases hk : jKey payload "status" with
          | none =>
            rw [patchStatusCheck_none row payload hk] at hcheck
            injection hcheck with h2
            subst h2
            rfl
          | some v =>
            unfold patchStatusCheck at hcheck
            rw [hk] at hcheck
            cases hparse : statusOfString (statusValueStr v) with
            | none => simp [hparse] at hcheck
            | some s =>
              simp only [hparse] at hcheck
              cases hval : validateTaskTransition row.status s with
              | some msg => simp [hval] at hcheck
              | none =>
                simp only [hval] at hcheck
                injection hcheck with h2
                subst h2
                simp [hparse]
    · rw [updateTaskPatch_unknown row payload now hfields] at hok
      exact Except.noConfusion hok
  · intro payload projectIds taskId now row hist hok
    unfold createTask at hok
    split_ifs at hok with h1 h2 h3 h4 h5
    simp only [Except.ok.injEq, Prod.mk.injEq] at hok
    exact hok.2.symm

/-- Witness for claim C5 at concrete inputs: a real transition appends one
row, a no-op appends none. -/
theorem claim_c5_history_append_witness :
    ([{ task_id := "t1", from_status := some RECEIVED, to_status := ROUTED,
        changed_at := 3 }] : List HistoryRow)
      = (match (some ROUTED : Option TaskStatus) with
        | some s =>
          if s = sampleTextRow.status then ([] : List HistoryRow)
          else [{ task_id := sampleTextRow.id,
                  from_status := some sampleTextRow.status,
                  to_status := s, changed_at := 3 }]
        | none => []) := by
  have h := claim_c5_history_append.1 sampleTextRow
    { status := some ROUTED } 3
    (applyInternal sampleTextRow { status := some ROUTED } 3,
     [{ task_id := "t1", from_status := some RECEIVED, to_status := ROUTED,
        changed_at := 3 }])
    (by rfl)
  exact h

/-! ## Claim C6 -/

lemma validate_to_failed (s : TaskStatus) (hd : s ≠ DELIVERED) :
    validateTaskTransition s FAILED = none := by
  revert hd
  revert s
  decide

lemma stUpdateTask_ok (st : TrackerState) (p : InternalPatch) (s : TaskStatus)
    (hs : p.status = some s)
    (hv : validateTaskTransition st.task.status s = none) :
    stUpdateTask st p = Except.ok { st with
      task := applyInternal st.task p (st.clock + 1)
      history := st.history ++
        (if s = st.task.status then []
         else [{ task_id := st.task.id, from_status := some st.task.status,
                 to_status := s, changed_at := st.clock + 1 }])
      clock := st.clock + 1 } := by
  unfold stUpdateTask
  rw [updateTaskInternal_ok st.task p (st.clock + 1) s hs hv]

lemma string_eq_empty_of_data_nil (s : String) (h : s.data = []) : s = "" := by
  cases s
  subst h
  rfl

lemma pyTruncate_length_le (s : String) (n : Nat) :
    (pyTruncate s n).length ≤ n := by
  have h : (pyTruncate s n).length = (s.toList.take n).length := rfl
  rw [h, List.length_take]
  exact min_le_left _ _

lemma pyTruncate_ne_empty (s : String) (n : Nat) (hs : s ≠ "") (hn : 0 < n) :
    pyTruncate s n ≠ "" := by
  intro he
  apply hs
  have hd : s.toList.take n = [] := congrArg String.data he
  have hlen := congrArg List.length hd
  rw [List.length_take] at hlen
  simp only [List.length_nil] at hlen
  have hz : s.toList.length = 0 := by omega
  exact string_eq_empty_of_data_nil s (List.length_eq_zero.mp hz)

lemma failTask_eq (st : TrackerState) (msg : String)
    (h1 : st.task.status ≠ FAILED)
    (hv : validateTaskTransition st.task.status FAILED = none) :
    failTask st msg = { st with
      task := applyInternal st.task
        { status := some FAILED,
          failure_reason := some (pyTruncate
            (if pyStrip msg == "" then "Unknown pipeline error"
             else pyStrip msg) 500) }
        (st.clock + 1)
      history := st.history ++
        [{ task_id := st.task.id, from_status := some st.task.status,
           to_status := FAILED, changed_at := st.clock + 1 }]
      clock := st.clock + 1 } := by
  simp only [failTask]
  rw [if_pos h1, stUpdateTask_ok st _ FAILED rfl hv,
    if_neg (show ¬(FAILED = st.task.status) from fun hh => h1 hh.symm)]

/-- A delivered task inside a tracker state (used in claims about the
failure routine). -/
def sampleDeliveredState : TrackerState :=
  { task := { sampleTextRow with
      status := DELIVERED
      final_summary := some "done" }
    history := []
    toolRuns := []
    clock := 0 }

/-- Claim C6 counterexample: (1) a PATCH can move a task into FAILED with a
null `failure_reason`, so not every FAILED task carries a non-empty reason;
(2) the failure routine leaves a DELIVERED task untouched (the validator
rejects DELIVERED → FAILED), so "not already FAILED" does not guarantee the
transition happens. -/
theorem claim_c6_failed_reason_counterexample :
    ((updateTaskPatch sampleTextRow [("status", some "FAILED")] 1).map
        (fun out => (out.1.status, out.1.failure_reason))
      = Except.ok (FAILED, none))
    ∧ failTask sampleDeliveredState "boom" = sampleDeliveredState := by
  constructor
  · rfl
  · decide

/-- Claim C6 (amended): when an exception with message `msg` reaches the
failure routine and the reloaded status is neither FAILED nor DELIVERED,
the task is transitioned to FAILED with `failure_reason` set to the
stripped message (or "Unknown pipeline error" when blank) truncated to 500
characters — hence non-empty and of length at most 500; a task already in
FAILED is left untouched.  Tasks PATCHed into FAILED, however, may carry a
null `failure_reason`, so the claim's consequence holds only for
dispatcher-failed tasks. -/
theorem claim_c6_failure_routine :
    (∀ st msg, st.task.status ≠ FAILED → st.task.status ≠ DELIVERED →
      (failTask st msg).task.status = FAILED
      ∧ ∃ r, (failTask st msg).task.failure_reason = some r
          ∧ r ≠ "" ∧ r.length ≤ 500)
    ∧ (∀ st msg, st.task.status = FAILED → failTask st msg = st) := by
  constructor
  · intro st msg h1 h2
    have hv := validate_to_failed st.task.status h2
    rw [failTask_eq st msg h1 hv]
    refine ⟨rfl, pyTruncate
      (if pyStrip msg == "" then "Unknown pipeline error" else pyStrip msg)
      500, rfl, ?_, pyTruncate_length_le _ _⟩
    by_cases hb : (pyStrip msg == "") = true
    · rw [if_pos hb]
      decide
    · rw [if_neg hb]
      refine pyTruncate_ne_empty _ _ (fun he => ?_) (by omega)
      rw [he] at hb
      exact hb rfl
  · intro st msg h1
    simp [failTask, h1]

/-- Witness for claim C6 (amended) at a concrete state: a RECEIVED task
failed with a blank message gets the default reason. -/
theorem claim_c6_failure_routine_witness :
    (failTask { task := sampleTextRow, history := [], toolRuns := [],
                clock := 0 } "  ").task.status = FAILED
    ∧ ∃ r, (failTask { task := sampleTextRow, history := [], toolRuns := [],
                       clock := 0 } "  ").task.failure_reason = some r
        ∧ r ≠ "" ∧ r.length ≤ 500 :=
  claim_c6_failure_routine.1
    { task := sampleTextRow, history := [], toolRuns := [], clock := 0 }
    "  " (by decide) (by decide)

/-! ## Claim C9 -/

/-- Claim C9: a PATCH whose `status` is an invalid transition from the
task's current status returns HTTP 400 and leaves the whole tracker state —
the task row with all its stage fields and `updated_at`, the history and
the tool runs — exactly as it was. -/
theorem claim_c9_invalid_patch_unchanged :
    ∀ st payload v s msg,
      jKey payload "status" = some v →
      statusOfString (statusValueStr v) = some s →
      validateTaskTransition st.task.status s = some msg →
      patchTaskEndpoint st payload = (st, 400) := by
  intro st payload v s msg hk hparse hv
  unfold patchTaskEndpoint
  by_cases hfields : (payload.map (fun q => q.1)).filter
      (fun k => k ∉ updatableFields) = []
  · rw [updateTaskPatch_invalid st.task payload (st.clock + 1) v s msg hfields
      hk hparse hv]
  · rw [updateTaskPatch_unknown st.task payload (st.clock + 1) hfields]

/-- Witness for claim C9: PATCHing a DELIVERED task to REFINING yields 400
and the untouched state. -/
theorem claim_c9_invalid_patch_unchanged_witness :
    patchTaskEndpoint sampleDeliveredState [("status", some "REFINING")]
      = (sampleDeliveredState, 400) :=
  claim_c9_invalid_patch_unchanged sampleDeliveredState
    [("status", some "REFINING")] (some "REFINING") REFINING
    "Invalid task status transition from DELIVERED to REFINING"
    (by decide) (by decide) (by decide)

/-! ## Projection lemmas for the pipeline proofs -/

@[simp] lemma overrideField_some {α : Type} (v : α) (old : Option α) :
    overrideField (some v) old = some v := rfl

@[simp] lemma overrideField_none {α : Type} (old : Option α) :
    overrideField none old = old := rfl

@[simp] lemma applyInternal_id (row : TaskRow) (p : InternalPatch) (now : Nat) :
    (applyInternal row p now).id = row.id := rfl

@[simp] lemma applyInternal_input_type (row : TaskRow) (p : InternalPatch)
    (now : Nat) : (applyInternal row p now).input_type = row.input_type := rfl

@[simp] lemma applyInternal_raw_text (row : TaskRow) (p : InternalPatch)
    (now : Nat) : (applyInternal row p now).raw_text = row.raw_text := rfl

@[simp] lemma applyInternal_raw_audio_uri (row : TaskRow) (p : InternalPatch)
    (now : Nat) :
    (applyInternal row p now).raw_audio_uri = row.raw_audio_uri := rfl

@[simp] lemma applyInternal_status (row : TaskRow) (p : InternalPatch)
    (now : Nat) :
    (applyInternal row p now).status = p.status.getD row.status := rfl

@[simp] lemma applyInternal_transcript (row : TaskRow) (p : InternalPatch)
    (now : Nat) :
    (applyInternal row p now).transcript
      = overrideField p.transcript row.transcript := rfl

@[simp] lemma applyInternal_failure_reason (row : TaskRow) (p : InternalPatch)
    (now : Nat) :
    (applyInternal row p now).failure_reason
      = overrideField p.failure_reason row.failure_reason := rfl

lemma stUpdateTask_ok_props (st : TrackerState) (p : InternalPatch)
    (s : TaskStatus) (st' : TrackerState) (hs : p.status = some s)
    (hok : stUpdateTask st p = Except.ok st') :
    st'.task.status = s ∧ st'.task.input_type = st.task.input_type
    ∧ st'.task.raw_text = st.task.raw_text
    ∧ st'.task.raw_audio_uri = st.task.raw_audio_uri
    ∧ st'.task.id = st.task.id
    ∧ st'.toolRuns = st.toolRuns := by
  have hv : validateTaskTransition st.task.status s = none := by
    cases hvv : validateTaskTransition st.task.status s with
    | none => rfl
    | some msg =>
      unfold stUpdateTask at hok
      rw [updateTaskInternal_invalid st.task p (st.clock + 1) s msg hs hvv]
        at hok
      exact Except.noConfusion hok
  rw [stUpdateTask_ok st p s hs hv] at hok
  injection hok with h
  subst h
  simp [hs]

lemma stUpdateTask_not_error (st : TrackerState) (p : InternalPatch)
    (s : TaskStatus) (e : String) (hs : p.status = some s)
    (hv : validateTaskTransition st.task.status s = none)
    (herr : stUpdateTask st p = Except.error e) : False := by
  rw [stUpdateTask_ok st p s hs hv] at herr
  exact Except.noConfusion herr

lemma pipelineAfterInput_refine_empty (st : TrackerState) (up : Upstreams)
    (runId inputText : String) (rbody : List (String × String))
    (hrefine : up.refine = Except.ok rbody)
    (hempty : pyStrip ((jKey rbody "refined_text").getD "") = "") :
    pipelineAfterInput st up runId inputText
      = (st, some "Refine returned empty refined_text") := by
  unfold pipelineAfterInput
  rw [hrefine]
  simp [hempty]

/-! ## Claim C7 -/

/-- Claim C7: whenever the task reaches the Refine call (text task with
non-blank raw text, or voice task whose ASR response produced a non-blank
transcript) and Refine answers 200 with a `refined_text` that is empty
after stripping, the dispatcher fails the task: the final status is FAILED,
the `failure_reason` contains the word "empty", and no ToolRun row is
created. -/
theorem claim_c7_refine_empty_fails :
    (∀ st up runId rbody,
      st.task.status = RECEIVED →
      st.task.input_type ≠ "voice" →
      pyStrip (st.task.raw_text.getD "") ≠ "" →
      up.refine = Except.ok rbody →
      pyStrip ((jKey rbody "refined_text").getD "") = "" →
      (processTask st up runId).task.status = FAILED
      ∧ (processTask st up runId).task.failure_reason
          = some ("Refine returned " ++ "empty" ++ " refined_text")
      ∧ (processTask st up runId).toolRuns = st.toolRuns)
    ∧ (∀ st up runId abody rbody,
      st.task.status = RECEIVED →
      st.task.input_type = "voice" →
      up.asr = Except.ok abody →
      pyStrip ((jKey abody "transcript").getD "") ≠ "" →
      up.refine = Except.ok rbody →
      pyStrip ((jKey rbody "refined_text").getD "") = "" →
      (processTask st up runId).task.status = FAILED
      ∧ (processTask st up runId).task.failure_reason
          = some ("Refine returned " ++ "empty" ++ " refined_text")
      ∧ (processTask st up runId).toolRuns = st.toolRuns) := by
  constructor
  · intro st up runId rbody hstatus htype hraw hrefine hempty
    have hv1 : validateTaskTransition st.task.status ROUTED = none := by
      rw [hstatus]
      decide
    unfold processTask processTaskBody
    cases hr1 : stUpdateTask st { status := some ROUTED } with
    | error e => exact absurd hr1 (fun h =>
        stUpdateTask_not_error st _ ROUTED e rfl hv1 h)
    | ok st1 =>
      obtain ⟨hst1, htype1, hraw1, haud1, hid1, hrun1⟩ :=
        stUpdateTask_ok_props st _ ROUTED st1 rfl hr1
      have hbe1 : (st1.task.input_type == "voice") = false := by
        rw [htype1]
        exact beq_eq_false_iff_ne.mpr htype
      have hbe2 : (pyStrip (st1.task.raw_text.getD "") == "") = false := by
        rw [hraw1]
        exact beq_eq_false_iff_ne.mpr hraw
      simp only [hbe1, hbe2, Bool.false_eq_true, if_false]
      have hv2 : validateTaskTransition st1.task.status REFINING = none := by
        rw [hst1]
        decide
      cases hr2 : stUpdateTask st1
          { status := some REFINING, failure_reason := some "" } with
      | error e => exact absurd hr2 (fun h =>
          stUpdateTask_not_error st1 _ REFINING e rfl hv2 h)
      | ok st3 =>
        obtain ⟨hst3, htype3, hraw3, haud3, hid3, hrun3⟩ :=
          stUpdateTask_ok_props st1 _ REFINING st3 rfl hr2
        simp only [pipelineAfterInput_refine_empty st3 up runId
          (pyStrip (st1.task.raw_text.getD "")) rbody hrefine hempty]
        have hnf : st3.task.status ≠ FAILED := by
          rw [hst3]
          decide
        have hnd : st3.task.status ≠ DELIVERED := by
          rw [hst3]
          decide
        rw [failTask_eq st3 _ hnf (validate_to_failed _ hnd)]
        refine ⟨by simp, ?_, by simp [hrun3, hrun1]⟩
        simp only [applyInternal_failure_reason, overrideField_some]
        decide
  · intro st up runId abody rbody hstatus htype hasr htr hrefine hempty
    have hv1 : validateTaskTransition st.task.status ROUTED = none := by
      rw [hstatus]
      decide
    unfold processTask processTaskBody
    cases hr1 : stUpdateTask st { status := some ROUTED } with
    | error e => exact absurd hr1 (fun h =>
        stUpdateTask_not_error st _ ROUTED e rfl hv1 h)
    | ok st1 =>
      obtain ⟨hst1, htype1, hraw1, haud1, hid1, hrun1⟩ :=
        stUpdateTask_ok_props st _ ROUTED st1 rfl hr1
      have hbe1 : (st1.task.input_type == "voice") = true := by
        rw [htype1, htype]
        rfl
      simp only [hbe1, if_true]
      have hv2 : validateTaskTransition st1.task.status TRANSCRIBING = none := by
        rw [hst1]
        decide
      cases hr2 : stUpdateTask st1 { status := some TRANSCRIBING } with
      | error e => exact absurd hr2 (fun h =>
          stUpdateTask_not_error st1 _ TRANSCRIBING e rfl hv2 h)
      | ok st2 =>
        obtain ⟨hst2, htype2, hraw2, haud2, hid2, hrun2⟩ :=
          stUpdateTask_ok_props st1 _ TRANSCRIBING st2 rfl hr2
        rw [hasr]
        have hbe2 : (pyStrip ((jKey abody "transcript").getD "") == "") = false :=
          beq_eq_false_iff_ne.mpr htr
        simp only [hbe2, Bool.false_eq_true, if_false]
        have hv3 : validateTaskTransition st2.task.status REFINING = none := by
          rw [hst2]
          decide
        cases hr3 : stUpdateTask st2
            { status := some REFINING,
              transcript := some (pyStrip ((jKey abody "transcript").getD "")),
              failure_reason := some "" } with
        | error e => exact absurd hr3 (fun h =>
            stUpdateTask_not_error st2 _ REFINING e rfl hv3 h)
        | ok st3 =>
          obtain ⟨hst3, htype3, hraw3, haud3, hid3, hrun3⟩ :=
            stUpdateTask_ok_props st2 _ REFINING st3 rfl hr3
          simp only [pipelineAfterInput_refine_empty st3 up runId
            (pyStrip ((jKey abody "transcript").getD "")) rbody hrefine hempty]
          have hnf : st3.task.status ≠ FAILED := by
            rw [hst3]
            decide
          have hnd : st3.task.status ≠ DELIVERED := by
            rw [hst3]
            decide
          rw [failTask_eq st3 _ hnf (validate_to_failed _ hnd)]
          refine ⟨by simp, ?_, by simp [hrun3, hrun2, hrun1]⟩
          simp only [applyInternal_failure_reason, overrideField_some]
          decide

/-- A fresh text task in a tracker state, as enqueued by `POST /tasks`. -/
def sampleTextState : TrackerState :=
  { task := sampleTextRow
    history := [{ task_id := "t1", from_status := none, to_status := RECEIVED,
                  changed_at := 0 }]
    toolRuns := []
    clock := 0 }

/-- Upstream responses where Refine answers with an empty refined_text. -/
def upsRefineEmpty : Upstreams :=
  { asr := Except.ok []
    refine := Except.ok [("refined_text", "")]
    tooler := Except.ok []
    summarizer := Except.ok []
    tts := Except.ok [] }

/-- Witness for claim C7 at the concrete scenario of spec section 8.3. -/
theorem claim_c7_refine_empty_fails_witness :
    (processTask sampleTextState upsRefineEmpty "r1").task.status = FAILED
    ∧ (processTask sampleTextState upsRefineEmpty "r1").task.failure_reason
        = some ("Refine returned " ++ "empty" ++ " refined_text")
    ∧ (processTask sampleTextState upsRefineEmpty "r1").toolRuns
        = sampleTextState.toolRuns :=
  claim_c7_refine_empty_fails.1 sampleTextState upsRefineEmpty "r1"
    [("refined_text", "")] rfl (by decide) (by decide) rfl (by decide)

/-! ## Claim C1 -/

/-- A fresh voice task in a tracker state. -/
def sampleVoiceRow : TaskRow :=
  { id := "t2"
    project_id := "p1"
    input_type := "voice"
    raw_text := none
    raw_audio_uri := some "file:///a.ogg"
    transcript := none
    refined_text := none
    status := RECEIVED
    final_summary := none
    final_audio_uri := none
    failure_reason := none
    created_at := 0
    updated_at := 0 }

def sampleVoiceState : TrackerState :=
  { task := sampleVoiceRow
    history := [{ task_id := "t2", from_status := none, to_status := RECEIVED,
                  changed_at := 0 }]
    toolRuns := []
    clock := 0 }

/-- Upstream responses as produced by the repository's own collaborators:
the ASR service answers `{"transcript_text": ...}` (services/asr/app.py),
all later stages succeed. -/
def upsAsrTranscriptText : Upstreams :=
  { asr := Except.ok [("transcript_text", "hello")]
    refine := Except.ok [("refined_text", "hello")]
    tooler := Except.ok [("result_text", "ok"), ("stderr", "")]
    summarizer := Except.ok [("summary_text", "sum")]
    tts := Except.ok [("audio_uri", "file:///s.ogg")] }

/-- The same run with the ASR body keyed `"transcript"` instead. -/
def upsAsrTranscript : Upstreams :=
  { upsAsrTranscriptText with asr := Except.ok [("transcript", "hello")] }

/-- Claim C1: the dispatcher reads only the key `"transcript"` of the ASR
response (tracker app.py line 298).  Given a 200 response whose body holds
the primary contract key `"transcript_text"` with a non-empty string — what
the repository's own ASR service returns — the transcript is treated as
empty: the task is failed with "ASR returned empty transcript" and no
transcript is persisted, instead of moving to REFINING.  With the same
string under `"transcript"` the pipeline runs to DELIVERED. -/
theorem claim_c1_transcript_text_dropped :
    ((processTask sampleVoiceState upsAsrTranscriptText "r1").task.status
        = FAILED
     ∧ (processTask sampleVoiceState upsAsrTranscriptText "r1").task.transcript
        = none
     ∧ (processTask sampleVoiceState upsAsrTranscriptText "r1").task.failure_reason
        = some "ASR returned empty transcript")
    ∧ ((processTask sampleVoiceState upsAsrTranscript "r1").task.status
        = DELIVERED
     ∧ (processTask sampleVoiceState upsAsrTranscript "r1").task.transcript
        = some "hello") := by
  decide

/-! ## Claim C8 -/

@[simp] lemma sendCallback_status (r : SupToolRun) (d : Bool) :
    (sendCallback r d).status = r.status := by
  unfold sendCallback
  split_ifs <;> rfl

@[simp] lemma sendCallback_exit_code (r : SupToolRun) (d : Bool) :
    (sendCallback r d).exit_code = r.exit_code := by
  unfold sendCallback
  split_ifs <;> rfl

@[simp] lemma sendCallback_stderrLog (r : SupToolRun) (d : Bool) :
    (sendCallback r d).stderrLog = r.stderrLog := by
  unfold sendCallback
  split_ifs <;> rfl

lemma tailLines_singleton (e : String) : tailLines [e] 40 = e := by
  simp [tailLines, String.intercalate, String.intercalate.go]

/-- Claim C8: a runner thread given a run whose adapter produced a
`startup_error` marks it FAILED with `exit_code = -1`, writes exactly the
startup-error text to `stderr.log` (so the default 40-line `stderr_tail` is
that text), invokes the completion-callback routine, and never spawns a
subprocess; and the git-autocommit adapter, for a workdir that exists, is a
directory and lacks a `.git` child, produces a startup error whose text
contains "not a git repository". -/
theorem claim_c8_startup_error_failed :
    (∀ w sp run0 cmd e, run0.startup_error = some e →
      (runnerThread w sp run0 cmd).run.status = "FAILED"
      ∧ (runnerThread w sp run0 cmd).run.exit_code = some (-1)
      ∧ (runnerThread w sp run0 cmd).run.stderrLog = [e]
      ∧ tailLines (runnerThread w sp run0 cmd).run.stderrLog 40 = e
      ∧ (runnerThread w sp run0 cmd).spawned = false
      ∧ (runnerThread w sp run0 cmd).callbackInvoked = true)
    ∧ (∀ w payload wd,
        pyStrip ((jKey payload "workdir").getD (JVal.jstr w.cwd)).pyStr = wd →
        wd ≠ "" →
        w.fs wd = { present := true, isDir := true, hasGitChild := false } →
        buildGitAutocommitAdapter w payload = Except.ok
          { command := none,
            startup_error := some ("Directory '" ++ wd
              ++ ("' is " ++ "not a git repository")) }) := by
  constructor
  · intro w sp run0 cmd e h
    unfold runnerThread
    simp only [h]
    simp [tailLines_singleton]
  · intro w payload wd hwd hne hfs
    simp only [buildGitAutocommitAdapter]
    rw [hwd, hfs]
    have hbe : (wd == "") = false := beq_eq_false_iff_ne.mpr hne
    simp only [hbe, Bool.false_eq_true, if_false]
    rw [show ("' is " ++ "not a git repository" : String)
      = "' is not a git repository" from rfl]
    rfl

/-- A registered run carrying a startup error, and a supervisor world whose
filesystem shows an existing directory without `.git` (used as witness). -/
def sampleStartupRun : SupToolRun :=
  { id := "run1"
    tool_name := "git-autocommit"
    status := "QUEUED"
    stdout_path := "/tmp/tooler-artifacts/run1/stdout.log"
    stderr_path := "/tmp/tooler-artifacts/run1/stderr.log"
    stdoutLog := []
    stderrLog := []
    artifacts := ["/tmp/tooler-artifacts/run1/stdout.log",
                  "/tmp/tooler-artifacts/run1/stderr.log"]
    callback_url := some "http://tracker:8000/cb"
    startup_error := some "Directory '/srv/work' is not a git repository" }

def sampleToolerWorld : ToolerWorld :=
  { fs := fun _ => { present := true, isDir := true, hasGitChild := false }
    cwd := "/app"
    today := "2026-10-12"
    pushEnabled := false
    runAsUser := ""
    runAsUserExists := true
    codexMock := false
    codexBinaryFound := false
    codexAuthFileExists := false
    codexModeEnv := "readonly"
    codexModelEnv := "" }

def sampleSpawnWorld : SpawnWorld :=
  { spawn := Except.ok (4242, 0, ["done"], [])
    callbackDelivered := true
    startedTime := 10
    finishedTime := 11 }

/-- Witness for claim C8 at a concrete run and world. -/
theorem claim_c8_startup_error_failed_witness :
    ((runnerThread sampleToolerWorld sampleSpawnWorld sampleStartupRun
        (some ["python"])).run.status = "FAILED"
     ∧ (runnerThread sampleToolerWorld sampleSpawnWorld sampleStartupRun
        (some ["python"])).spawned = false)
    ∧ buildGitAutocommitAdapter sampleToolerWorld
        [("workdir", JVal.jstr "/srv/work")] = Except.ok
        { command := none,
          startup_error := some ("Directory '/srv/work'"
            ++ (" is " ++ "not a git repository")) } := by
  constructor
  · have h := claim_c8_startup_error_failed.1 sampleToolerWorld
      sampleSpawnWorld sampleStartupRun (some ["python"])
      "Directory '/srv/work' is not a git repository" rfl
    exact ⟨h.1, h.2.2.2.2.1⟩
  · have h := claim_c8_startup_error_failed.2 sampleToolerWorld
      [("workdir", JVal.jstr "/srv/work")] "/srv/work" (by decide)
      (by decide) rfl
    rw [h]
    rfl

/-! ## Claim C10 -/

/-- Claim C10: `POST /tooler/run` substitutes the tool name "dummy" when
`tool_name` is absent, null or blank, instead of rejecting; a non-blank
top-level `text` is copied (stripped) into `input.message` when `message`
is not already set; hence the dispatcher's inline payload
`{task_id, text}` resolves to the dummy tool with the refined text as its
message, and the command executed is the dummy echo script carrying that
text. -/
theorem claim_c10_tooler_run_defaults :
    (resolveToolName none = "dummy"
     ∧ resolveToolName (some JVal.jnull) = "dummy"
     ∧ (∀ s, pyStrip s = "" → resolveToolName (some (JVal.jstr s)) = "dummy"))
    ∧ (∀ t ip, pyStrip t ≠ "" → jKey ip "message" = none →
        mergeTextIntoInput (some (JVal.jstr t)) ip
          = ip ++ [("message", JVal.jstr (pyStrip t))])
    ∧ (∀ w text, pyStrip text = text → text ≠ "" →
        pyReplaceChar text '\n' ' ' = text →
        pyReplaceChar text '\"' '\'' = text →
        runToolerResolve { tool_name := none, text := some (JVal.jstr text),
                           input := none }
          = ("dummy", [("message", JVal.jstr text)])
        ∧ runSyncToolCommand w "dummy" [("message", JVal.jstr text)]
            = Except.ok ["bash", "-c", "echo \"start: " ++ text
                ++ "\"; echo \"working...\"; sleep 1.0; echo \"done\""]) := by
  refine ⟨⟨rfl, rfl, ?_⟩, ?_, ?_⟩
  · intro s h
    by_cases hs : s = ""
    · subst hs
      rfl
    · simp [resolveToolName, hs, h, JVal.pyStr]
  · intro t ip h1 h2
    unfold mergeTextIntoInput
    rw [h2]
    simp [h1]
  · intro w text hstrip hne hn hq
    constructor
    · unfold runToolerResolve
      simp only [Prod.mk.injEq]
      refine ⟨rfl, ?_⟩
      simp [mergeTextIntoInput, hstrip, hne, jKey]
    · unfold runSyncToolCommand resolveToolAdapter buildDummyAdapter
        buildDummyCommand
      simp [jKey, JVal.pyStr, JVal.pyFloatInt, hn, hq, hstrip]
      rw [String.append_assoc, String.append_assoc]
      rfl

/-- Witness for claim C10: the dispatcher's inline payload with the
refined text "deploy v2". -/
theorem claim_c10_tooler_run_defaults_witness :
    runToolerResolve { tool_name := none,
                       text := some (JVal.jstr "deploy v2"), input := none }
      = ("dummy", [("message", JVal.jstr "deploy v2")])
    ∧ runSyncToolCommand sampleToolerWorld "dummy"
        [("message", JVal.jstr "deploy v2")]
      = Except.ok ["bash", "-c",
          "echo \"start: deploy v2\"; echo \"working...\"; sleep 1.0; echo \"done\""] := by
  have h := claim_c10_tooler_run_defaults.2.2 sampleToolerWorld "deploy v2"
    (by decide) (by decide) (by decide) (by decide)
  refine ⟨h.1, ?_⟩
  rw [h.2]
  rfl

end Rta
